import Mathlib

/-!
Shallow embedding of the presentation / frame-synchronization core of
`triangle.c` from `hellux/vulkan-exp`: the swapchain lifecycle
(`vulkan_swapchain`, `render_swapchain_create`, `render_swapchain_destroy`,
`render_swapchain_recreate`), the synchronization-object pool
(`vulkan_synchronization`), initialization (`render_init`), the per-image
uniform update (`render_ubo_update`), and the per-tick frame scheduler
(`render_draw`).

External collaborators are modelled as deterministic inputs:
the surface's capability query is a `SurfaceEnv` value, per-tick driver
results (`vkWaitForFences`, `vkAcquireNextImageKHR`, `vkQueueSubmit`,
`vkQueuePresentKHR`) and the acquired image index are fields of `TickInput`,
the monotonic clock read by `render_ubo_update` is the tick's `time` field,
and `vkGetSwapchainImagesKHR` is modelled as granting exactly the image
count the swapchain was created with. Vulkan handles are opaque naturals;
the contents of the per-image uniform buffers are abstracted to the clock
value last written into them.
-/

namespace Triangle

/-- The constant `CONCURRENT_FRAMES` from triangle.c line 16: the fixed bound on frames
in flight and the length of the `frm_inflight` fence ring. -/
def CONCURRENT_FRAMES : Nat := 3

/-- The fence-wait timeout passed to `vkWaitForFences` at triangle.c
line 1223 (`1e9` nanoseconds, converted to `uint64_t`). -/
def fenceWaitTimeoutNs : Nat := 1000000000

/-- The subset of `VkResult` codes the modelled code paths distinguish.
`errorDeviceLost` stands for any failure code other than the two
staleness codes checked at triangle.c line 1229. -/
inductive VkResult where
  | success
  | suboptimalKHR
  | errorOutOfDateKHR
  | timeout
  | errorDeviceLost
deriving DecidableEq

/-- The pipeline stage flags that appear in the submission's wait-stage
mask (triangle.c lines 1237-1238). -/
inductive PipelineStage where
  | colorAttachmentOutput
  | topOfPipe
deriving DecidableEq

/-- Model of `VkExtent2D`. -/
structure Extent2D where
  width : Nat
  height : Nat
deriving DecidableEq

/-- The fields of `VkSurfaceCapabilitiesKHR` the code consumes
(triangle.c lines 267-269, 296, 305). -/
structure SurfaceCaps where
  minImageCount : Nat
  currentExtent : Extent2D
deriving DecidableEq

/-- Model of `VkPresentModeKHR`. -/
inductive PresentMode where
  | immediate
  | mailbox
  | fifo
  | fifoRelaxed
deriving DecidableEq

/-- The display surface's query results consumed by `vulkan_swapchain`:
capabilities, supported formats (opaque handles) and present modes. -/
structure SurfaceEnv where
  caps : SurfaceCaps
  formats : List Nat
  presentModes : List PresentMode
deriving DecidableEq

/-- The swapchain parameters `vulkan_swapchain` selects. -/
structure SwapchainInfo where
  format : Nat
  extent : Extent2D
  requestedImageCount : Nat
deriving DecidableEq

/-- Model of `vulkan_swapchain` (triangle.c lines 263-315): extent is the surface's
`currentExtent`, the format is the first reported format (`fmts[0]`; no
format reported is a failure), mailbox present mode must be available
(`die` otherwise, line 290-291), and the swapchain is created requesting
`caps.minImageCount + 1` images (line 296). `none` models the `die` path. -/
def vulkan_swapchain (env : SurfaceEnv) : Option SwapchainInfo :=
  match env.formats with
  | [] => none
  | f :: _ =>
    if PresentMode.mailbox ∈ env.presentModes then
      some { format := f,
             extent := env.caps.currentExtent,
             requestedImageCount := env.caps.minImageCount + 1 }
    else
      none

/-- Model of `vkGetSwapchainImagesKHR` (queried in `vulkan_imageviews`, triangle.c
lines 321-325): the driver chooses the actual image count; the external
driver is modelled deterministically as granting exactly the requested
count. -/
def vkGetSwapchainImagesKHR (requested : Nat) : Nat := requested

/-- The ImageChain: the swapchain-derived state stored in
`struct render_handles` (triangle.c lines 38-47) that
`render_swapchain_create` fills and `render_swapchain_destroy` releases.
Handles are opaque naturals; `sc_uniform` holds the abstracted contents of
the per-image uniform buffers (the clock value last written by
`render_ubo_update`, initially 0). -/
structure ImageChain where
  sc_extent : Extent2D
  format : Nat
  sc_imgc : Nat
  sc_imgs : List Nat
  sc_imageviews : List Nat
  sc_framebufs : List Nat
  sc_cmdbufs : List Nat
  sc_uniform : List Nat
  sc_descsets : List Nat
deriving DecidableEq

/-- Model of `render_swapchain_create` (triangle.c lines 1001-1026): swapchain,
image views, render pass, pipeline, framebuffers, uniform buffers,
descriptor pool, descriptor sets and command buffers, all sized by the
image count. `none` models the fatal `die` path inside creation. -/
def render_swapchain_create (env : SurfaceEnv) : Option ImageChain :=
  match vulkan_swapchain env with
  | none => none
  | some sci =>
    let imgc := vkGetSwapchainImagesKHR sci.requestedImageCount
    some { sc_extent := sci.extent,
           format := sci.format,
           sc_imgc := imgc,
           sc_imgs := List.range imgc,
           sc_imageviews := List.range imgc,
           sc_framebufs := List.range imgc,
           sc_cmdbufs := List.range imgc,
           sc_uniform := List.replicate imgc 0,
           sc_descsets := List.range imgc }

/-- The resources created by `render_swapchain_create` and released by
`render_swapchain_destroy`, at the granularity of the create/destroy
calls in triangle.c. -/
inductive Resource where
  | swapchain
  | imageViews
  | renderPass
  | pipelineLayout
  | pipeline
  | framebuffers
  | uniformBuffers
  | descriptorPool
  | descriptorSets
  | commandBuffers
deriving DecidableEq

/-- The creation order of `render_swapchain_create` (triangle.c lines
1001-1026): `vulkan_swapchain`, `vulkan_imageviews`, `vulkan_renderpass`,
`vulkan_pipeline` (pipeline layout then pipeline, lines 579 and 602),
`vulkan_framebufs`, `vulkan_uniformbufs`, `vulkan_descpool`,
`vulkan_descsets`, `vulkan_cmdbufs`. -/
def createOrder : List Resource :=
  [Resource.swapchain, Resource.imageViews, Resource.renderPass,
   Resource.pipelineLayout, Resource.pipeline, Resource.framebuffers,
   Resource.uniformBuffers, Resource.descriptorPool,
   Resource.descriptorSets, Resource.commandBuffers]

/-- The observable effect of `render_swapchain_destroy`: whether it first
performs a full device synchronization, and the order in which it releases
the chain's resources. -/
structure DestroySpec where
  waitsDeviceIdle : Bool
  releaseOrder : List Resource

/-- Model of `render_swapchain_destroy` (triangle.c lines 1028-1056):
`vkDeviceWaitIdle` first (line 1029), then descriptor pool (line 1031),
per-image uniform buffers and their memory (lines 1033-1038), command
buffers (line 1040), framebuffers (lines 1041-1043), pipeline (line 1045),
pipeline layout (line 1046), render pass (line 1047), image views (lines
1048-1050), swapchain (line 1052). The descriptor sets are never released
individually (they are reclaimed with the pool). -/
def render_swapchain_destroy : DestroySpec :=
  { waitsDeviceIdle := true,
    releaseOrder :=
      [Resource.descriptorPool, Resource.uniformBuffers,
       Resource.commandBuffers, Resource.framebuffers, Resource.pipeline,
       Resource.pipelineLayout, Resource.renderPass, Resource.imageViews,
       Resource.swapchain] }

/-- The chain-core resources the spec's destroy sentence names explicitly:
images (released with the swapchain), views, framebuffers, pipeline
(and its layout), render target description, command sequences. -/
def coreResource : Resource → Bool
  | Resource.swapchain => true
  | Resource.imageViews => true
  | Resource.renderPass => true
  | Resource.pipelineLayout => true
  | Resource.pipeline => true
  | Resource.framebuffers => true
  | Resource.commandBuffers => true
  | _ => false

/-- The synchronization objects created by `vulkan_synchronization`. -/
structure SyncObjects where
  img_available : List Nat
  img_rendered : List Nat
  frm_inflight : List Bool
deriving DecidableEq

/-- Model of `vulkan_synchronization` (triangle.c lines 967-999): one
"image available" and one "image rendered" semaphore per swapchain image
(`image_count` elements each, lines 971-972), and `CONCURRENT_FRAMES`
fences created with `VK_FENCE_CREATE_SIGNALED_BIT` (lines 989-998),
i.e. all initially signaled (`true`). -/
def vulkan_synchronization (image_count : Nat) : SyncObjects :=
  { img_available := List.range image_count,
    img_rendered := List.range image_count,
    frm_inflight := List.replicate CONCURRENT_FRAMES true }

/-- The mutable render state the frame scheduler touches: the ImageChain,
the semaphore arrays (allocated once at initialization, never recreated),
the fence ring (`true` = signaled) and the frame cursor `frm_index`. -/
structure RenderState where
  chain : ImageChain
  img_available : List Nat
  img_rendered : List Nat
  frm_inflight : List Bool
  frm_index : Nat
deriving DecidableEq

/-- The swapchain-and-synchronization part of `render_init` (triangle.c
lines 1063-1092): `render_swapchain_create` followed by
`vulkan_synchronization(sc_imgc)`; `frm_index` starts at 0 (`rh` is
zero-initialized in `main`, line 1270). -/
def render_init (env : SurfaceEnv) : Option RenderState :=
  match render_swapchain_create env with
  | none => none
  | some c =>
    let sy := vulkan_synchronization c.sc_imgc
    some { chain := c,
           img_available := sy.img_available,
           img_rendered := sy.img_rendered,
           frm_inflight := sy.frm_inflight,
           frm_index := 0 }

/-- Model of `render_swapchain_recreate` (triangle.c lines 1058-1061): destroy the
old chain, then create a new one from the current surface state. The
synchronization objects and the frame cursor are not touched. `none`
models a fatal failure inside re-creation. -/
def render_swapchain_recreate (s : RenderState) (env : SurfaceEnv) :
    Option RenderState :=
  match render_swapchain_create env with
  | none => none
  | some c => some { s with chain := c }

/-- The per-tick driver inputs: the surface state a recreate would observe,
the driver results of the wait / acquire / submit / present calls, the
image index written by `vkAcquireNextImageKHR`, and the clock value read
by `render_ubo_update`. -/
structure TickInput where
  env : SurfaceEnv
  waitRes : VkResult
  acquireRes : VkResult
  imgIndex : Nat
  submitRes : VkResult
  presentRes : VkResult
  time : Nat
deriving DecidableEq

/-- The `VkSubmitInfo` configuration of the one `vkQueueSubmit` call
(triangle.c lines 1239-1251), with semaphores, command buffer and fence
recorded as indices into their arrays. -/
structure Submission where
  waitSemaphore : Nat
  waitStage : PipelineStage
  commandBuffer : Nat
  signalSemaphore : Nat
  signalFence : Nat
deriving DecidableEq

/-- The `VkPresentInfoKHR` configuration of the `vkQueuePresentKHR` call
(triangle.c lines 1254-1264). -/
structure PresentOp where
  waitSemaphore : Nat
  imageIndex : Nat
deriving DecidableEq

/-- Outcome of one `render_draw` tick: a fatal `die`, a stale acquire that
recreated the chain and returned early, or a completed tick carrying the
submission and present configurations it issued. -/
inductive TickOutcome where
  | fatal (msg : String)
  | recreated (s : RenderState)
  | completed (s : RenderState) (sub : Submission) (pres : PresentOp)
deriving DecidableEq

/-- Model of `render_ubo_update` (triangle.c lines 1189-1219): writes a uniform
buffer object derived from the monotonic clock into the uniform buffer
memory of image `img_index` (`vkMapMemory` / `memcpy` / `vkUnmapMemory`,
lines 1214-1218). The written payload is abstracted to the clock value. -/
def render_ubo_update (c : ImageChain) (time img_index : Nat) : ImageChain :=
  { c with sc_uniform := c.sc_uniform.set img_index time }

/-- Model of `render_draw` (triangle.c lines 1221-1267), the per-tick frame
scheduler:
1. `vkWaitForFences` on `frm_inflight[frm_index]` with timeout
   `fenceWaitTimeoutNs`; the result is not inspected (line 1222-1223).
2. `vkAcquireNextImageKHR` using `img_available[frm_index]`; if the result
   is `VK_ERROR_OUT_OF_DATE_KHR` or `VK_SUBOPTIMAL_KHR`, recreate the
   swapchain and return (lines 1229-1232).
3. `render_ubo_update` on the acquired image (line 1233).
4. `vkResetFences` on `frm_inflight[frm_index]` (line 1235).
5. `vkQueueSubmit` of `sc_cmdbufs[img_index]`, waiting on
   `img_available[frm_index]` at the color-attachment-output stage,
   signaling `img_rendered[frm_index]` and fence `frm_inflight[frm_index]`;
   any non-success result is fatal (lines 1237-1252).
6. `vkQueuePresentKHR` of the acquired image, waiting on
   `img_rendered[frm_index]`; the result is not inspected (line 1264).
7. `frm_index = (frm_index + 1) % CONCURRENT_FRAMES` (line 1266). -/
def render_draw (s : RenderState) (i : TickInput) : TickOutcome :=
  if i.acquireRes = VkResult.errorOutOfDateKHR ∨
     i.acquireRes = VkResult.suboptimalKHR then
    match render_swapchain_recreate s i.env with
    | none => TickOutcome.fatal "failed to create swapchain"
    | some s' => TickOutcome.recreated s'
  else
    let chain' := render_ubo_update s.chain i.time i.imgIndex
    let fences' := s.frm_inflight.set s.frm_index false
    if i.submitRes ≠ VkResult.success then
      TickOutcome.fatal "failed to submit draw command buffer"
    else
      TickOutcome.completed
        { s with chain := chain',
                 frm_inflight := fences',
                 frm_index := (s.frm_index + 1) % CONCURRENT_FRAMES }
        { waitSemaphore := s.frm_index,
          waitStage := PipelineStage.colorAttachmentOutput,
          commandBuffer := i.imgIndex,
          signalSemaphore := s.frm_index,
          signalFence := s.frm_index }
        { waitSemaphore := s.frm_index,
          imageIndex := i.imgIndex }

/-- Iterated ticks, as driven by the main loop (triangle.c lines
1275-1285); `none` once a tick dies fatally. -/
def runTicks (s : RenderState) : List TickInput → Option RenderState
  | [] => some s
  | i :: rest =>
    match render_draw s i with
    | TickOutcome.fatal _ => none
    | TickOutcome.recreated s' => runTicks s' rest
    | TickOutcome.completed s' _ _ => runTicks s' rest

/-- Whether every semaphore-array access made by `render_draw` during a
run stays in bounds. Each tick indexes `img_available` (acquire, and the
submit wait on a non-stale tick) and `img_rendered` (submit signal and
present wait) only at `frm_index`; both arrays have the same length, so
one bound per tick suffices. -/
def runAccessesInBounds (s : RenderState) : List TickInput → Bool
  | [] => true
  | i :: rest =>
    decide (s.frm_index < s.img_available.length) &&
    (match render_draw s i with
     | TickOutcome.fatal _ => true
     | TickOutcome.recreated s' => runAccessesInBounds s' rest
     | TickOutcome.completed s' _ _ => runAccessesInBounds s' rest)

/-! Concrete evaluation points used by the witness theorems. -/

/-- A surface reporting `minImageCount = 2`, an 800x600 extent, one format
and mailbox among its present modes. -/
def exEnv : SurfaceEnv :=
  { caps := { minImageCount := 2,
              currentExtent := { width := 800, height := 600 } },
    formats := [0],
    presentModes := [PresentMode.mailbox, PresentMode.fifo] }

/-- The swapchain parameters `vulkan_swapchain` selects for `exEnv`. -/
def exSci : SwapchainInfo :=
  { format := 0,
    extent := { width := 800, height := 600 },
    requestedImageCount := 3 }

/-- The chain `render_swapchain_create` builds from `exEnv`. -/
def exChain : ImageChain :=
  { sc_extent := { width := 800, height := 600 },
    format := 0,
    sc_imgc := 3,
    sc_imgs := [0, 1, 2],
    sc_imageviews := [0, 1, 2],
    sc_framebufs := [0, 1, 2],
    sc_cmdbufs := [0, 1, 2],
    sc_uniform := [0, 0, 0],
    sc_descsets := [0, 1, 2] }

/-- The state `render_init` produces from `exEnv`. -/
def exState : RenderState :=
  { chain := exChain,
    img_available := [0, 1, 2],
    img_rendered := [0, 1, 2],
    frm_inflight := [true, true, true],
    frm_index := 0 }

/-- A regular tick: acquire yields image 2 with no staleness, submit and
present succeed, the clock reads 7. -/
def exTick : TickInput :=
  { env := exEnv,
    waitRes := VkResult.success,
    acquireRes := VkResult.success,
    imgIndex := 2,
    submitRes := VkResult.success,
    presentRes := VkResult.success,
    time := 7 }

/-- The tick `exTick` with the fence wait reporting `VK_TIMEOUT`. -/
def exTickTimeout : TickInput := { exTick with waitRes := VkResult.timeout }

/-- The tick `exTick` with the acquire reporting a stale configuration. -/
def exTickStale : TickInput :=
  { exTick with acquireRes := VkResult.errorOutOfDateKHR }

/-- The state after one `exTick` from `exState`: image 2's uniform payload
is 7, slot 0's fence was reset, the cursor advanced to 1. -/
def exState1 : RenderState :=
  { chain := { exChain with sc_uniform := [0, 0, 7] },
    img_available := [0, 1, 2],
    img_rendered := [0, 1, 2],
    frm_inflight := [false, true, true],
    frm_index := 1 }

/-- The submission `exTick` issues from `exState`. -/
def exSub : Submission :=
  { waitSemaphore := 0,
    waitStage := PipelineStage.colorAttachmentOutput,
    commandBuffer := 2,
    signalSemaphore := 0,
    signalFence := 0 }

/-- The present operation `exTick` issues from `exState`. -/
def exPres : PresentOp := { waitSemaphore := 0, imageIndex := 2 }

/-! Helper lemmas shared by the claim theorems. -/

/-- Inversion for the stale branch: a `recreated` outcome replaces the
chain with a freshly created one and leaves every other state field
unchanged. -/
theorem render_draw_recreated_inv {s : RenderState} {i : TickInput}
    {s' : RenderState} (h : render_draw s i = TickOutcome.recreated s') :
    (i.acquireRes = VkResult.errorOutOfDateKHR ∨
     i.acquireRes = VkResult.suboptimalKHR) ∧
    ∃ c, render_swapchain_create i.env = some c ∧ s' = { s with chain := c } := by
  unfold render_draw at h
  split at h
  · rename_i hstale
    unfold render_swapchain_recreate at h
    cases hc : render_swapchain_create i.env with
    | none => rw [hc] at h; exact absurd h (by simp)
    | some c =>
      rw [hc] at h
      simp only [TickOutcome.recreated.injEq] at h
      exact ⟨hstale, c, rfl, h.symm⟩
  · split at h <;> simp at h

/-- Inversion for the completed branch: the successor state, submission and
present configuration are exactly those built at triangle.c lines
1233-1266, the acquire result was not stale and the submit succeeded. -/
theorem render_draw_completed_inv {s : RenderState} {i : TickInput}
    {s' : RenderState} {sub : Submission} {pres : PresentOp}
    (h : render_draw s i = TickOutcome.completed s' sub pres) :
    s' = { s with chain := render_ubo_update s.chain i.time i.imgIndex,
                  frm_inflight := s.frm_inflight.set s.frm_index false,
                  frm_index := (s.frm_index + 1) % CONCURRENT_FRAMES } ∧
    sub = { waitSemaphore := s.frm_index,
            waitStage := PipelineStage.colorAttachmentOutput,
            commandBuffer := i.imgIndex,
            signalSemaphore := s.frm_index,
            signalFence := s.frm_index } ∧
    pres = { waitSemaphore := s.frm_index, imageIndex := i.imgIndex } ∧
    ¬(i.acquireRes = VkResult.errorOutOfDateKHR ∨
      i.acquireRes = VkResult.suboptimalKHR) ∧
    i.submitRes = VkResult.success := by
  unfold render_draw at h
  split at h
  · rename_i hstale
    cases hc : render_swapchain_recreate s i.env with
    | none => rw [hc] at h; exact absurd h (by simp)
    | some t => rw [hc] at h; exact absurd h (by simp)
  · rename_i hstale
    split at h
    · exact absurd h (by simp)
    · rename_i hsub
      simp only [TickOutcome.completed.injEq] at h
      exact ⟨h.1.symm, h.2.1.symm, h.2.2.symm, hstale, not_not.mp hsub⟩

/-- Inversion for `render_init`: the initial state's shape. -/
theorem render_init_inv {env : SurfaceEnv} {s0 : RenderState}
    (h : render_init env = some s0) :
    ∃ c, render_swapchain_create env = some c ∧
      s0 = { chain := c,
             img_available := List.range c.sc_imgc,
             img_rendered := List.range c.sc_imgc,
             frm_inflight := List.replicate CONCURRENT_FRAMES true,
             frm_index := 0 } := by
  unfold render_init at h
  cases hc : render_swapchain_create env with
  | none => rw [hc] at h; exact absurd h (by simp)
  | some c =>
    rw [hc] at h
    simp only [Option.some.injEq] at h
    exact ⟨c, rfl, h.symm⟩

/-- Inversion for `vulkan_swapchain`: the selected extent is the surface's
current extent and the requested image count is the reported minimum plus
one. -/
theorem vulkan_swapchain_inv {env : SurfaceEnv} {sci : SwapchainInfo}
    (h : vulkan_swapchain env = some sci) :
    sci.requestedImageCount = env.caps.minImageCount + 1 ∧
    sci.extent = env.caps.currentExtent := by
  unfold vulkan_swapchain at h
  split at h
  · exact absurd h (by simp)
  · split at h
    · simp only [Option.some.injEq] at h
      rw [← h]
      exact ⟨rfl, rfl⟩
    · exact absurd h (by simp)

/-- Inversion for `render_swapchain_create`: the chain's image count and
extent come from the swapchain parameters. -/
theorem render_swapchain_create_inv {env : SurfaceEnv} {c : ImageChain}
    (h : render_swapchain_create env = some c) :
    ∃ sci, vulkan_swapchain env = some sci ∧
      c.sc_imgc = sci.requestedImageCount ∧ c.sc_extent = sci.extent := by
  unfold render_swapchain_create at h
  cases hs : vulkan_swapchain env with
  | none => rw [hs] at h; exact absurd h (by simp)
  | some sci =>
    rw [hs] at h
    simp only [Option.some.injEq] at h
    exact ⟨sci, rfl, by rw [← h]; rfl, by rw [← h]⟩

/-- A tick whose acquire result is not stale and whose submit succeeds,
evaluated symbolically to its completed outcome. -/
theorem render_draw_plain (s : RenderState) (i : TickInput)
    (hna : ¬(i.acquireRes = VkResult.errorOutOfDateKHR ∨
             i.acquireRes = VkResult.suboptimalKHR))
    (hsub : i.submitRes = VkResult.success) :
    render_draw s i = TickOutcome.completed
      { s with chain := render_ubo_update s.chain i.time i.imgIndex,
               frm_inflight := s.frm_inflight.set s.frm_index false,
               frm_index := (s.frm_index + 1) % CONCURRENT_FRAMES }
      { waitSemaphore := s.frm_index,
        waitStage := PipelineStage.colorAttachmentOutput,
        commandBuffer := i.imgIndex,
        signalSemaphore := s.frm_index,
        signalFence := s.frm_index }
      { waitSemaphore := s.frm_index, imageIndex := i.imgIndex } := by
  unfold render_draw
  rw [if_neg hna, if_neg (by simp [hsub])]

/-- Every run stays within the semaphore arrays as long as the cursor is
in range and the arrays hold at least `CONCURRENT_FRAMES` entries. -/
theorem accesses_ok_of_inv (inputs : List TickInput) :
    ∀ s : RenderState, s.frm_index < CONCURRENT_FRAMES →
      CONCURRENT_FRAMES ≤ s.img_available.length →
      runAccessesInBounds s inputs = true := by
  induction inputs with
  | nil => intro s _ _; rfl
  | cons i rest ih =>
    intro s hf hl
    have hacc : s.frm_index < s.img_available.length := lt_of_lt_of_le hf hl
    unfold runAccessesInBounds
    rw [Bool.and_eq_true]
    refine ⟨by simp only [decide_eq_true_eq]; exact hacc, ?_⟩
    cases hd : render_draw s i with
    | fatal m => rfl
    | recreated t =>
      obtain ⟨_, c, _, ht⟩ := render_draw_recreated_inv hd
      exact ih t (by rw [ht]; exact hf) (by rw [ht]; exact hl)
    | completed t sub pres =>
      obtain ⟨ht, _⟩ := render_draw_completed_inv hd
      refine ih t ?_ ?_
      · rw [ht]; exact Nat.mod_lt _ (by decide)
      · rw [ht]; exact hl

/-! Claim theorems. -/

/-- C1: on a tick whose acquire step reports `VK_ERROR_OUT_OF_DATE_KHR` or
`VK_SUBOPTIMAL_KHR`, `render_draw` invokes the swapchain recreation and
terminates the tick: the outcome is `recreated` with only the chain
replaced (so the slot's fence ring and `frm_index` are exactly those of
the pre-tick state, in particular no fence is reset and `frm_index` has
not advanced), and no submission or present is issued. -/
theorem stale_acquire_recreates_and_short_circuits
    (s : RenderState) (i : TickInput) (c : ImageChain)
    (hstale : i.acquireRes = VkResult.errorOutOfDateKHR ∨
              i.acquireRes = VkResult.suboptimalKHR)
    (hc : render_swapchain_create i.env = some c) :
    render_draw s i = TickOutcome.recreated { s with chain := c } ∧
    (∀ s' sub pres, render_draw s i ≠ TickOutcome.completed s' sub pres) := by
  have h1 : render_draw s i = TickOutcome.recreated { s with chain := c } := by
    unfold render_draw
    rw [if_pos hstale]
    unfold render_swapchain_recreate
    rw [hc]
  refine ⟨h1, fun s' sub pres hcon => ?_⟩
  rw [h1] at hcon
  exact absurd hcon (by simp)

/-- Witness for C1 at a concrete stale tick. -/
theorem stale_acquire_witness :
    ((exTickStale.acquireRes = VkResult.errorOutOfDateKHR ∨
      exTickStale.acquireRes = VkResult.suboptimalKHR) ∧
     render_swapchain_create exTickStale.env = some exChain) ∧
    (render_draw exState exTickStale =
       TickOutcome.recreated { exState with chain := exChain } ∧
     ∀ s' sub pres,
       render_draw exState exTickStale ≠ TickOutcome.completed s' sub pres) :=
  ⟨⟨Or.inl rfl, by decide⟩,
   stale_acquire_recreates_and_short_circuits exState exTickStale exChain
     (Or.inl rfl) (by decide)⟩

/-- C2: starting from any initialized state, the frame cursor `frm_index`
stays in `[0, CONCURRENT_FRAMES)` over every run of ticks, and every
completed (non-stale) tick advances it by exactly 1 modulo
`CONCURRENT_FRAMES`. -/
theorem next_slot_in_range_and_advances :
    (∀ env s0 inputs s', render_init env = some s0 →
       runTicks s0 inputs = some s' → s'.frm_index < CONCURRENT_FRAMES) ∧
    (∀ s i s' sub pres, s.frm_index < CONCURRENT_FRAMES →
       render_draw s i = TickOutcome.completed s' sub pres →
       s'.frm_index = (s.frm_index + 1) % CONCURRENT_FRAMES) := by
  constructor
  · have key : ∀ (inputs : List TickInput) (s s' : RenderState),
        s.frm_index < CONCURRENT_FRAMES → runTicks s inputs = some s' →
        s'.frm_index < CONCURRENT_FRAMES := by
      intro inputs
      induction inputs with
      | nil =>
        intro s s' hs h
        simp only [runTicks, Option.some.injEq] at h
        exact h ▸ hs
      | cons i rest ih =>
        intro s s' hs h
        unfold runTicks at h
        cases hd : render_draw s i with
        | fatal m => rw [hd] at h; exact absurd h (by simp)
        | recreated t =>
          rw [hd] at h
          obtain ⟨_, c, _, ht⟩ := render_draw_recreated_inv hd
          exact ih t s' (by rw [ht]; exact hs) h
        | completed t sub pres =>
          rw [hd] at h
          obtain ⟨ht, _⟩ := render_draw_completed_inv hd
          exact ih t s' (by rw [ht]; exact Nat.mod_lt _ (by decide)) h
    intro env s0 inputs s' hinit hrun
    obtain ⟨c, _, hs0⟩ := render_init_inv hinit
    exact key inputs s0 s' (by rw [hs0]; show 0 < CONCURRENT_FRAMES; decide) hrun
  · intro s i s' sub pres _ h
    obtain ⟨ht, _⟩ := render_draw_completed_inv h
    rw [ht]

/-- Witness for C2: one completed tick from the initial state advances the
cursor from 0 to 1 and stays in range. -/
theorem next_slot_witness :
    ((render_init exEnv = some exState ∧
      runTicks exState [exTick] = some exState1) ∧
     exState1.frm_index < CONCURRENT_FRAMES) ∧
    ((exState.frm_index < CONCURRENT_FRAMES ∧
      render_draw exState exTick = TickOutcome.completed exState1 exSub exPres) ∧
     exState1.frm_index = (exState.frm_index + 1) % CONCURRENT_FRAMES) :=
  ⟨⟨⟨by decide, by decide⟩,
    next_slot_in_range_and_advances.1 exEnv exState [exTick] exState1
      (by decide) (by decide)⟩,
   ⟨⟨by decide, by decide⟩,
    next_slot_in_range_and_advances.2 exState exTick exState1 exSub exPres
      (by decide) (by decide)⟩⟩

/-- C3 counterexample: the claim says a fence-wait timeout is fatal and
the tick does not proceed to acquire. On the code, the result of
`vkWaitForFences` is never inspected (triangle.c lines 1222-1223): at a
concrete tick whose wait reports `VK_TIMEOUT`, `render_draw` nevertheless
proceeds through acquire, reset, submit and present and completes the
tick. -/
theorem wait_timeout_not_fatal_cex :
    exTickTimeout.waitRes = VkResult.timeout ∧
    render_draw exState exTickTimeout =
      TickOutcome.completed exState1 exSub exPres := by decide

/-- C3 amended: the wait step blocks on the current slot's fence with the
bounded timeout of 1e9 nanoseconds, but its result is not inspected: the
outcome of `render_draw` is entirely independent of the wait result, so a
timeout is not treated as fatal and the tick proceeds to acquire. -/
theorem wait_result_ignored_bounded_timeout :
    fenceWaitTimeoutNs = 1000000000 ∧
    ∀ (s : RenderState) (i : TickInput) (r : VkResult),
      render_draw s { i with waitRes := r } = render_draw s i :=
  ⟨rfl, fun _ _ _ => rfl⟩

/-- Witness for the amended C3 at a concrete timeout tick. -/
theorem wait_result_ignored_witness :
    render_draw exState { exTick with waitRes := VkResult.timeout } =
      render_draw exState exTick :=
  wait_result_ignored_bounded_timeout.2 exState exTick VkResult.timeout

/-- C4: every completed (non-stale) tick submits exactly the pre-recorded
command buffer of the acquired image index, waiting on the current slot's
"image acquired" semaphore (index `frm_index`, not the image index) at the
color-attachment-output pipeline stage, and signaling the current slot's
"render finished" semaphore and the current slot's fence. -/
theorem submit_uses_slot_semaphores_and_image_cmdbuf
    (s : RenderState) (i : TickInput) (s' : RenderState)
    (sub : Submission) (pres : PresentOp)
    (h : render_draw s i = TickOutcome.completed s' sub pres) :
    sub = { waitSemaphore := s.frm_index,
            waitStage := PipelineStage.colorAttachmentOutput,
            commandBuffer := i.imgIndex,
            signalSemaphore := s.frm_index,
            signalFence := s.frm_index } :=
  (render_draw_completed_inv h).2.1

/-- Witness for C4 at a concrete tick acquiring image 2 from slot 0. -/
theorem submit_config_witness :
    render_draw exState exTick = TickOutcome.completed exState1 exSub exPres ∧
    exSub = { waitSemaphore := exState.frm_index,
              waitStage := PipelineStage.colorAttachmentOutput,
              commandBuffer := exTick.imgIndex,
              signalSemaphore := exState.frm_index,
              signalFence := exState.frm_index } :=
  ⟨by decide,
   submit_uses_slot_semaphores_and_image_cmdbuf exState exTick exState1
     exSub exPres (by decide)⟩

/-- C5 counterexample: the release order of `render_swapchain_destroy` is
not the strict reverse of the creation order of
`render_swapchain_create`: the descriptor pool and the per-image uniform
buffers are released before the command buffers, although the command
buffers were created last (and the descriptor sets are never released
individually at all). -/
theorem destroy_not_strict_reverse_cex :
    render_swapchain_destroy.releaseOrder ≠ createOrder.reverse := by decide

/-- C5 amended: `render_swapchain_destroy` first performs a full device
synchronization (`vkDeviceWaitIdle`), and then releases the chain-core
resources named by the spec (command sequences, framebuffers, pipeline
and its layout, render pass, image views, swapchain/images) in strict
reverse-of-creation order; however, the descriptor pool and the per-image
uniform storage are released first, before the command buffers, rather
than in strict reverse position, and the descriptor sets are reclaimed
with the pool instead of individually. -/
theorem destroy_idle_then_core_reverse_order :
    render_swapchain_destroy.waitsDeviceIdle = true ∧
    render_swapchain_destroy.releaseOrder.filter coreResource =
      (createOrder.filter coreResource).reverse ∧
    render_swapchain_destroy.releaseOrder =
      [Resource.descriptorPool, Resource.uniformBuffers,
       Resource.commandBuffers, Resource.framebuffers, Resource.pipeline,
       Resource.pipelineLayout, Resource.renderPass, Resource.imageViews,
       Resource.swapchain] := by decide

/-- C8: the result of the present step is never inspected: on a non-stale
tick the outcome of `render_draw` is entirely independent of the present
result, and the tick never recreates the chain, so a stale or suboptimal
present result cannot cause a rebuild or an error in that tick. -/
theorem present_result_never_triggers_recreate
    (s : RenderState) (i : TickInput) (p : VkResult)
    (h : ¬(i.acquireRes = VkResult.errorOutOfDateKHR ∨
           i.acquireRes = VkResult.suboptimalKHR)) :
    render_draw s { i with presentRes := p } = render_draw s i ∧
    ∀ s', render_draw s i ≠ TickOutcome.recreated s' := by
  refine ⟨rfl, fun s' hcon => ?_⟩
  obtain ⟨hstale, _⟩ := render_draw_recreated_inv hcon
  exact h hstale

/-- Witness for C8: forcing the present result to `VK_SUBOPTIMAL_KHR` on a
concrete non-stale tick changes nothing and triggers no recreate. -/
theorem present_result_witness :
    (¬(exTick.acquireRes = VkResult.errorOutOfDateKHR ∨
       exTick.acquireRes = VkResult.suboptimalKHR)) ∧
    (render_draw exState { exTick with presentRes := VkResult.suboptimalKHR } =
       render_draw exState exTick ∧
     ∀ s', render_draw exState exTick ≠ TickOutcome.recreated s') :=
  ⟨by decide,
   present_result_never_triggers_recreate exState exTick
     VkResult.suboptimalKHR (by decide)⟩

/-- C9 counterexample: the claim says the scheduler never mutates the
chain's derived per-image resources, naming the per-image uniform storage
among them, so that every chain field other than the frame cursor and
fence states is unchanged by a non-stale tick. On the code,
`render_draw` calls `render_ubo_update` (triangle.c line 1233), which
writes a fresh clock-derived payload into the acquired image's uniform
buffer: at a concrete non-stale tick the uniform storage contents change. -/
theorem scheduler_writes_uniform_cex :
    render_draw exState exTick = TickOutcome.completed exState1 exSub exPres ∧
    exState1.chain.sc_uniform ≠ exState.chain.sc_uniform := by decide

/-- C9 amended: a completed (non-stale) tick leaves the chain's structure
and handles untouched — extent, format, image count, images, views,
framebuffers, command buffers, descriptor sets, and both semaphore arrays
are unchanged — but it does write the acquired image's per-image uniform
storage (via `render_ubo_update`); besides that write, only the fence
ring (slot reset) and the frame cursor change. -/
theorem tick_mutates_only_cursor_fences_uniform
    (s : RenderState) (i : TickInput) (s' : RenderState)
    (sub : Submission) (pres : PresentOp)
    (h : render_draw s i = TickOutcome.completed s' sub pres) :
    s'.chain.sc_extent = s.chain.sc_extent ∧
    s'.chain.format = s.chain.format ∧
    s'.chain.sc_imgc = s.chain.sc_imgc ∧
    s'.chain.sc_imgs = s.chain.sc_imgs ∧
    s'.chain.sc_imageviews = s.chain.sc_imageviews ∧
    s'.chain.sc_framebufs = s.chain.sc_framebufs ∧
    s'.chain.sc_cmdbufs = s.chain.sc_cmdbufs ∧
    s'.chain.sc_descsets = s.chain.sc_descsets ∧
    s'.chain.sc_uniform = s.chain.sc_uniform.set i.imgIndex i.time ∧
    s'.img_available = s.img_available ∧
    s'.img_rendered = s.img_rendered ∧
    s'.frm_inflight = s.frm_inflight.set s.frm_index false ∧
    s'.frm_index = (s.frm_index + 1) % CONCURRENT_FRAMES := by
  obtain ⟨ht, _⟩ := render_draw_completed_inv h
  subst ht
  exact ⟨rfl, rfl, rfl, rfl, rfl, rfl, rfl, rfl, rfl, rfl, rfl, rfl, rfl⟩

/-- Witness for the amended C9 at a concrete tick. -/
theorem tick_effect_witness :
    render_draw exState exTick = TickOutcome.completed exState1 exSub exPres ∧
    exState1.chain.sc_uniform =
      exState.chain.sc_uniform.set exTick.imgIndex exTick.time ∧
    exState1.frm_index = (exState.frm_index + 1) % CONCURRENT_FRAMES :=
  ⟨by decide,
   (tick_mutates_only_cursor_fences_uniform exState exTick exState1 exSub
      exPres (by decide)).2.2.2.2.2.2.2.2.1,
   (tick_mutates_only_cursor_fences_uniform exState exTick exState1 exSub
      exPres (by decide)).2.2.2.2.2.2.2.2.2.2.2.2⟩

/-- C6: when the capability query reports `minImageCount = 2`, the
swapchain is created requesting one more image than the reported minimum
(3 images), the initialized chain holds 3 images, and all
`CONCURRENT_FRAMES = 3` CPU-wait fences are created already signaled, so
the first tick's wait does not block. -/
theorem init_requests_min_plus_one_and_signaled_fences
    (env : SurfaceEnv) (sci : SwapchainInfo) (s0 : RenderState)
    (hmin : env.caps.minImageCount = 2)
    (hsc : vulkan_swapchain env = some sci)
    (hinit : render_init env = some s0) :
    sci.requestedImageCount = 3 ∧
    s0.chain.sc_imgc = 3 ∧
    s0.frm_inflight = List.replicate CONCURRENT_FRAMES true ∧
    s0.frm_inflight.length = 3 := by
  obtain ⟨hreq, _⟩ := vulkan_swapchain_inv hsc
  obtain ⟨c, hc, hs0⟩ := render_init_inv hinit
  obtain ⟨sci', hsc', himgc, _⟩ := render_swapchain_create_inv hc
  rw [hsc] at hsc'
  injection hsc' with he
  subst he
  refine ⟨?_, ?_, ?_, ?_⟩
  · rw [hreq, hmin]
  · rw [hs0]
    show c.sc_imgc = 3
    rw [himgc, hreq, hmin]
  · rw [hs0]
  · rw [hs0]
    show (List.replicate CONCURRENT_FRAMES true).length = 3
    decide

/-- Witness for C6 at the concrete Scenario-A surface. -/
theorem init_scenario_a_witness :
    (exEnv.caps.minImageCount = 2 ∧
     vulkan_swapchain exEnv = some exSci ∧
     render_init exEnv = some exState) ∧
    (exSci.requestedImageCount = 3 ∧
     exState.chain.sc_imgc = 3 ∧
     exState.frm_inflight = List.replicate CONCURRENT_FRAMES true ∧
     exState.frm_inflight.length = 3) :=
  ⟨⟨rfl, by decide, by decide⟩,
   init_requests_min_plus_one_and_signaled_fences exEnv exSci exState rfl
     (by decide) (by decide)⟩

/-- C7: `render_swapchain_recreate` (destroy immediately followed by
create) against the same surface state as the original creation yields a
chain with the same image count and the same extent as the original. -/
theorem recreate_roundtrip_preserves_count_and_extent
    (env : SurfaceEnv) (s : RenderState) (c0 : ImageChain) (s' : RenderState)
    (hc : render_swapchain_create env = some c0)
    (hr : render_swapchain_recreate s env = some s') :
    s'.chain.sc_imgc = c0.sc_imgc ∧ s'.chain.sc_extent = c0.sc_extent := by
  unfold render_swapchain_recreate at hr
  rw [hc] at hr
  simp only [Option.some.injEq] at hr
  rw [← hr]
  exact ⟨rfl, rfl⟩

/-- Witness for C7: recreating from a used state (whose chain came from
the same surface) reproduces the original image count and extent. -/
theorem recreate_roundtrip_witness :
    (render_swapchain_create exEnv = some exChain ∧
     render_swapchain_recreate exState1 exEnv =
       some { exState1 with chain := exChain }) ∧
    (({ exState1 with chain := exChain } : RenderState).chain.sc_imgc =
       exChain.sc_imgc ∧
     ({ exState1 with chain := exChain } : RenderState).chain.sc_extent =
       exChain.sc_extent) :=
  ⟨⟨by decide, by decide⟩,
   recreate_roundtrip_preserves_count_and_extent exEnv exState1 exChain
     { exState1 with chain := exChain } (by decide) (by decide)⟩

/-- C10: the semaphore arrays are allocated with one entry per swapchain
image at initialization, while `render_draw` indexes them by the frame
slot `frm_index`, which ranges over `[0, CONCURRENT_FRAMES)`: every
semaphore access over every possible run is in bounds if and only if the
image count at initialization is at least `CONCURRENT_FRAMES = 3` (a
surface granting only 2 images makes the access at slot 2 go out of
bounds on the third tick). -/
theorem semaphore_bounds_iff_imgc_ge_frames
    (env : SurfaceEnv) (s0 : RenderState)
    (h : render_init env = some s0) :
    (∀ inputs, runAccessesInBounds s0 inputs = true) ↔
      CONCURRENT_FRAMES ≤ s0.chain.sc_imgc := by
  obtain ⟨c, _, hs0⟩ := render_init_inv h
  subst hs0
  constructor
  · intro hall
    have hplain : ∀ t : RenderState, render_draw t exTick =
        TickOutcome.completed
          { t with
              chain := render_ubo_update t.chain exTick.time exTick.imgIndex,
              frm_inflight := t.frm_inflight.set t.frm_index false,
              frm_index := (t.frm_index + 1) % CONCURRENT_FRAMES }
          { waitSemaphore := t.frm_index,
            waitStage := PipelineStage.colorAttachmentOutput,
            commandBuffer := exTick.imgIndex,
            signalSemaphore := t.frm_index,
            signalFence := t.frm_index }
          { waitSemaphore := t.frm_index, imageIndex := exTick.imgIndex } :=
      fun t => render_draw_plain t exTick (by decide) rfl
    have h3 := hall [exTick, exTick, exTick]
    simp only [runAccessesInBounds, hplain, Bool.and_eq_true,
      decide_eq_true_eq, List.length_range, CONCURRENT_FRAMES] at h3
    show 3 ≤ c.sc_imgc
    omega
  · intro hle inputs
    refine accesses_ok_of_inv inputs _ ?_ ?_
    · show 0 < CONCURRENT_FRAMES
      decide
    · show CONCURRENT_FRAMES ≤ (List.range c.sc_imgc).length
      rw [List.length_range]
      exact hle

/-- Witness for C10 at the concrete Scenario-A initialization (3 images,
3 slots: every access is in bounds). -/
theorem semaphore_bounds_witness :
    render_init exEnv = some exState ∧
    ((∀ inputs, runAccessesInBounds exState inputs = true) ↔
      CONCURRENT_FRAMES ≤ exState.chain.sc_imgc) :=
  ⟨by decide, semaphore_bounds_iff_imgc_ge_frames exEnv exState (by decide)⟩

end Triangle
